import Mathlib

/-!
# PathHero persistence/authentication core, shallow embedding

This file embeds `src/Server/util/database.js` of the PathHero repository:
a Users collection with find-or-create and validate operations (bcrypt-style
salted hashing with a fixed decoy hash against timing-based user
enumeration), and a Hunts collection with CRUD operations, generated
identifiers and derived URLs.

The underlying document store (MongoDB accessed through the `monk` library)
and the bcrypt library are external to the repository; their primitives are
modelled here as pure functions on an explicit in-memory `Store` state,
following the consumed-interface description in the specification
(document insert, atomic find-or-insert returning the previous state,
find-one, find-many, whole-document replace, remove-by-id).  The bcrypt
pair (hash, verify) is kept abstract as a structure of functions, since its
behaviour is not part of the repository.
-/

namespace PathHero

/-- A document of the Users collection: `userid` is the lookup key,
`secret` the salted hash (absent when the document was created outside
`findOrCreateUser`; the code also treats an empty string as absent, since
JavaScript `!doc.secret` is true for `""`). -/
structure UserDoc where
  userid : String
  secret : Option String
deriving Repr, DecidableEq

/-- Geographic coordinate of a pin.  The JavaScript numbers are modelled
as rationals (no claim computes on them). -/
structure Geo where
  lat : Rat
  lng : Rat
deriving Repr, DecidableEq

/-- One location of a hunt, with clues and expected answer. -/
structure Pin where
  answer : String
  geo : Geo
  clues : List String
  answerField : String
deriving Repr, DecidableEq

/-- Aggregate hunt information. -/
structure HuntInfo where
  numOfLocations : Nat
  huntTimeEst : Rat
  huntDistance : Rat
deriving Repr, DecidableEq

/-- A document of the Hunts collection.  `_id` and `url` are absent on the
object a caller passes to `addHunt` and are written by the store. -/
structure Hunt where
  _id : Option String
  creatorId : Option String
  url : Option String
  huntName : String
  huntDesc : String
  huntInfo : HuntInfo
  pins : List Pin
deriving Repr, DecidableEq

/-- The in-memory model of the document store: the two collections used by
`database.js`. -/
structure Store where
  users : List UserDoc
  hunts : List Hunt
deriving Repr, DecidableEq

/-- Result shape of `validateUser`: `{id: ..., message: ...}`. -/
structure AuthResult where
  id : Option String
  message : String
deriving Repr, DecidableEq

/-- The bcrypt library surface used by `database.js`: `bcrypt.hash` and
`bcrypt.compare`, kept abstract (external library). -/
structure Bcrypt where
  hash : String → String
  verify : String → String → Bool

/-- The server configuration surface consumed by `addHunt`
(`serverConfig.playSubdomain`, `serverConfig.domain`). -/
structure ServerConfig where
  playSubdomain : String
  domain : String
deriving Repr, DecidableEq

/-- The fixed decoy hash of `validateUser`
("create a fake secret so bycrypt still runs to reduce timing attacks"). -/
def dummySecret : String :=
  "$2a$10$alyHIMMFmX4dDzTB8FwtBu2UxL1oQzdiM9lYjI66XfUDit7n2z1Tu"

/-- Modelled from the spec: the storage engine's find-one primitive on the
Users collection, `db.get('Users').findOne({userid: username})`. -/
def usersFindOne (s : Store) (username : String) : Option UserDoc :=
  s.users.find? (fun d => d.userid = username)

/-- Modelled from the spec: the storage engine's atomic find-or-insert
primitive ("insert only if no matching document exists, return previous
state"), embedding `findAndModify({userid}, {$setOnInsert: {userid,
secret}}, {upsert: true, new: false})`: if a document with the `userid`
exists it is left unchanged and returned; otherwise a new document is
inserted and the previous state — no document — is returned. -/
def usersFindAndModify (s : Store) (userid hash : String) :
    Option UserDoc × Store :=
  match s.users.find? (fun d => d.userid = userid) with
  | some d => (some d, s)
  | none =>
      (none, { s with users := s.users ++ [{ userid := userid, secret := some hash }] })

/-- `password = password || Math.random().toString()`: a missing or empty
(falsy) password is replaced by a random placeholder, modelled as the
explicit parameter `rand`. -/
def effectivePassword (rand : String) (password : Option String) : String :=
  match password with
  | some p => if p = "" then rand else p
  | none => rand

/-- Embedding of `exports.findOrCreateUser` (database.js lines 76-102):
hash the effective password, run the atomic find-or-insert, and resolve
with the document that `findAndModify` hands to the success callback (the
previous state, `new: false`). -/
def findOrCreateUser (bc : Bcrypt) (rand : String) (s : Store)
    (userid : String) (password : Option String) : Option UserDoc × Store :=
  let hash := bc.hash (effectivePassword rand password)
  usersFindAndModify s userid hash

/-- The secret `validateUser` compares against:
`!doc || !doc.secret ? dummySecret : doc.secret` (an absent document, an
absent secret and an empty-string secret are all falsy). -/
def chosenSecret (doc : Option UserDoc) : String :=
  match doc with
  | none => dummySecret
  | some d =>
      match d.secret with
      | none => dummySecret
      | some sec => if sec = "" then dummySecret else sec

/-- The pure outcome of `validateUser` once the looked-up document is in
hand: verify the password against the chosen secret, then
`!doc || !isMatch` resolves the incorrect-credentials result, otherwise
`{id: doc.userid, message: 'success'}`. -/
def authOutcome (bc : Bcrypt) (doc : Option UserDoc) (password : String) :
    AuthResult :=
  let secret := chosenSecret doc
  let isMatch := bc.verify password secret
  match doc with
  | none => { id := none, message := "Incorrect user name or password" }
  | some d =>
      if isMatch then { id := some d.userid, message := "success" }
      else { id := none, message := "Incorrect user name or password" }

/-- Embedding of `exports.validateUser` (database.js lines 110-135) over
the in-memory store; the store is returned unchanged because the function
only issues a `findOne`. -/
def validateUser (bc : Bcrypt) (s : Store) (username password : String) :
    AuthResult × Store :=
  (authOutcome bc (usersFindOne s username) password, s)

/-- Embedding of `exports.validateUser` with the lookup outcome abstracted
as an `Except`: the `.error` branch of `findOne` rejects the promise, the
`.success` branch continues with the pure outcome (`bcrypt.compare` on
string inputs does not fail). -/
def validateUserE (bc : Bcrypt) (lookup : Except String (Option UserDoc))
    (password : String) : Except String AuthResult :=
  match lookup with
  | Except.error e => Except.error e
  | Except.ok doc => Except.ok (authOutcome bc doc password)

/-- The url built by `addHunt`:
`['http://', playSubdomain, '.', domain, '/', id].join('')`. -/
def huntUrl (cfg : ServerConfig) (hid : String) : String :=
  "http://" ++ cfg.playSubdomain ++ "." ++ cfg.domain ++ "/" ++ hid

/-- Embedding of `exports.addHunt` (database.js lines 170-183).  The
engine-generated identifier `hunts.id()` is the parameter `genId`.  The
code assigns `hunt._id` and `hunt.url` on the argument object itself and
inserts that object; the third component is therefore the caller's object
as it stands after the call (JavaScript passes the object by reference).
The promise resolves with the inserted document's `url` field. -/
def addHunt (cfg : ServerConfig) (genId : String) (s : Store) (hunt : Hunt) :
    String × Store × Hunt :=
  let mutated := { hunt with _id := some genId, url := some (huntUrl cfg genId) }
  (huntUrl cfg genId, { s with hunts := s.hunts ++ [mutated] }, mutated)

/-- Modelled from the spec: the storage engine's update-by-id
(whole-document replace) primitive used by `updateHunt`; following the
repository's own contract it resolves with the updated document, or null
when no document matched. -/
def huntsUpdate (s : Store) (hunt : Hunt) : Option Hunt × Store :=
  if s.hunts.any (fun h => h._id = hunt._id) then
    (some hunt,
     { s with hunts := s.hunts.map (fun h => if h._id = hunt._id then hunt else h) })
  else (none, s)

/-- Embedding of `exports.updateHunt` (database.js lines 190-193):
`db.get('Hunts').update({_id: hunt._id}, hunt)`, a whole-document
replace of the matching document by the supplied object. -/
def updateHunt (s : Store) (hunt : Hunt) : Option Hunt × Store :=
  huntsUpdate s hunt

/-- The id guard shared by `removeHuntbyId` and `getHuntById`
(database.js lines 211-213 and 223-225): a string whose length is neither
12 nor 24 is replaced by the all-zero identifier.  No other validation is
performed. -/
def normalizeHuntId (huntid : String) : String :=
  if huntid.length ≠ 12 ∧ huntid.length ≠ 24 then "000000000000000000000000"
  else huntid

/-- Embedding of `exports.removeHuntbyId` (database.js lines 210-216):
normalize the id, then remove the matching document; following the
repository's contract the promise resolves with the removed document or
null. -/
def removeHuntbyId (s : Store) (huntid : String) : Option Hunt × Store :=
  let hid := normalizeHuntId huntid
  match s.hunts.find? (fun h => h._id = some hid) with
  | none => (none, s)
  | some h => (some h, { s with hunts := s.hunts.filter (fun h2 => ¬(h2._id = some hid)) })

/-- Embedding of `exports.getHuntById` (database.js lines 222-228):
normalize the id, then `findOne({_id: huntid})`. -/
def getHuntById (s : Store) (huntid : String) : Option Hunt :=
  s.hunts.find? (fun h => h._id = some (normalizeHuntId huntid))

/-- Embedding of `exports.getUserHunts` (database.js lines 200-203):
`find({creatorId: userid})`. -/
def getUserHunts (s : Store) (userid : String) : List Hunt :=
  s.hunts.filter (fun h => h.creatorId = some userid)

/-- Embedding of `exports.getAllHunts` (database.js lines 234-237). -/
def getAllHunts (s : Store) : List Hunt :=
  s.hunts

/-! ## Helper lemmas -/

/-- A document found by `usersFindOne` carries the queried `userid`. -/
theorem usersFindOne_some_userid {s : Store} {u : String} {d : UserDoc}
    (h : usersFindOne s u = some d) : d.userid = u := by
  have h' : s.users.find? (fun d => d.userid = u) = some d := h
  simpa using List.find?_some h'

/-- A non-empty supplied password is the effective password. -/
theorem effectivePassword_some_ne (rand p : String) (h : ¬ p = "") :
    effectivePassword rand (some p) = p := by
  simp [effectivePassword, h]

/-- `find?` on a list extended by one matching element, when nothing in the
prefix matches, returns that element. -/
theorem find?_append_singleton {α : Type} (l : List α) (p : α → Bool) (d : α)
    (hl : l.find? p = none) (hd : p d = true) : (l ++ [d]).find? p = some d := by
  rw [List.find?_append, hl]
  simp [List.find?, hd]

/-! ## Claims -/

/-- Claim C1: for every username and password, `validateUser` resolves to
`{id: null, message: 'Incorrect user name or password'}` whenever no user
with that userid exists or the password does not verify against the chosen
hash, and to `{id: userid, message: 'success'}` otherwise; the
nonexistent-user case and the existing-user-wrong-password case produce
the same result (the first conjunct covers both by the same literal). -/
theorem validateUser_outcomes (bc : Bcrypt) (s : Store) (u p : String) :
    ((usersFindOne s u = none ∨ bc.verify p (chosenSecret (usersFindOne s u)) = false) →
        (validateUser bc s u p).1 = { id := none, message := "Incorrect user name or password" })
  ∧ (∀ d : UserDoc, usersFindOne s u = some d →
        bc.verify p (chosenSecret (usersFindOne s u)) = true →
        (validateUser bc s u p).1 = { id := some u, message := "success" }) := by
  constructor
  · intro h
    cases hdoc : usersFindOne s u with
    | none => simp [validateUser, authOutcome, hdoc]
    | some d =>
        rcases h with h | h
        · rw [hdoc] at h
          cases h
        · rw [hdoc] at h
          simp [validateUser, authOutcome, hdoc, h]
  · intro d hdoc hver
    rw [hdoc] at hver
    have hu := usersFindOne_some_userid hdoc
    simp [validateUser, authOutcome, hdoc, hver, hu]

/-- Claim C1, witness: on a store holding alice with secret `H:secret`
under the bcrypt model `hash p = H:p`, a wrong password yields the
incorrect-credentials result and the right password yields success. -/
theorem validateUser_outcomes_witness :
    (validateUser ⟨fun p => "H:" ++ p, fun p h => h == "H:" ++ p⟩
        ⟨[{ userid := "alice", secret := some "H:secret" }], []⟩ "alice" "wrong").1
      = { id := none, message := "Incorrect user name or password" }
  ∧ (validateUser ⟨fun p => "H:" ++ p, fun p h => h == "H:" ++ p⟩
        ⟨[{ userid := "alice", secret := some "H:secret" }], []⟩ "alice" "secret").1
      = { id := some "alice", message := "success" } :=
  ⟨(validateUser_outcomes ⟨fun p => "H:" ++ p, fun p h => h == "H:" ++ p⟩
      ⟨[{ userid := "alice", secret := some "H:secret" }], []⟩ "alice" "wrong").1
      (Or.inr (by decide)),
   (validateUser_outcomes ⟨fun p => "H:" ++ p, fun p h => h == "H:" ++ p⟩
      ⟨[{ userid := "alice", secret := some "H:secret" }], []⟩ "alice" "secret").2
      { userid := "alice", secret := some "H:secret" } (by decide) (by decide)⟩

/-- Claim C3 (code bug): `findOrCreateUser` does not resolve to the userid.
`findAndModify` runs with `new: false`, so its success callback receives the
previous state — no document on the insert branch, the old document on the
exists branch — and the code resolves with exactly that value (despite its
own comments `Returns a Promise with id` and `ignoring param doc`).  On a
store with no user alice the call resolves to none, and the repeated call
resolves to the pre-existing document, a different value. -/
theorem findOrCreateUser_resolution_bug :
    (findOrCreateUser ⟨fun p => "H:" ++ p, fun p h => h == "H:" ++ p⟩ "r"
        ⟨[], []⟩ "alice" (some "pw")).1 = none
  ∧ (findOrCreateUser ⟨fun p => "H:" ++ p, fun p h => h == "H:" ++ p⟩ "r2"
        (findOrCreateUser ⟨fun p => "H:" ++ p, fun p h => h == "H:" ++ p⟩ "r"
          ⟨[], []⟩ "alice" (some "pw")).2 "alice" (some "pw")).1
      = some { userid := "alice", secret := some "H:pw" } := by
  constructor
  · rfl
  · rfl

/-- Claim C7: `addHunt` resolves to
`'http://' ++ playSubdomain ++ '.' ++ domain ++ '/' ++ generatedId`, and the
document persisted alongside carries exactly that generated `_id` and that
url.  The identifier itself is produced by the engine (`hunts.id()`),
modelled as the parameter `genId`. -/
theorem addHunt_url_derivation (cfg : ServerConfig) (genId : String)
    (s : Store) (hunt : Hunt) :
    (addHunt cfg genId s hunt).1
        = "http://" ++ cfg.playSubdomain ++ "." ++ cfg.domain ++ "/" ++ genId
  ∧ (addHunt cfg genId s hunt).2.1.hunts
        = s.hunts ++ [{ hunt with _id := some genId, url := some (addHunt cfg genId s hunt).1 }] :=
  ⟨rfl, rfl⟩

/-- Claim C8: `validateUser` returns the store unchanged (its only storage
call is a `findOne`), an error outcome of the lookup is the only rejection
(and is forwarded), and every successful lookup — password mismatch
included — resolves normally. -/
theorem validateUser_frame_and_errors (bc : Bcrypt) (s : Store) (u p : String) :
    (validateUser bc s u p).2 = s
  ∧ (∀ e : String, validateUserE bc (Except.error e) p = Except.error e)
  ∧ (∀ lookup : Except String (Option UserDoc),
        (validateUserE bc lookup p).isOk = lookup.isOk)
  ∧ (∀ doc : Option UserDoc, bc.verify p (chosenSecret doc) = false →
        validateUserE bc (Except.ok doc) p
          = Except.ok { id := none, message := "Incorrect user name or password" }) := by
  refine ⟨rfl, fun _ => rfl, fun lookup => ?_, fun doc hver => ?_⟩
  · cases lookup <;> rfl
  · cases doc with
    | none => simp [validateUserE, authOutcome]
    | some d => simp [validateUserE, authOutcome, hver]

/-- Claim C8, witness: a failed lookup is forwarded, and on a store holding
bob a mismatching password still resolves normally with the
incorrect-credentials result. -/
theorem validateUser_frame_and_errors_witness :
    validateUserE ⟨fun p => "H:" ++ p, fun p h => h == "H:" ++ p⟩
        (Except.error "io down") "pw" = Except.error "io down"
  ∧ validateUserE ⟨fun p => "H:" ++ p, fun p h => h == "H:" ++ p⟩
        (Except.ok (some { userid := "bob", secret := some "H:other" })) "pw"
      = Except.ok { id := none, message := "Incorrect user name or password" } :=
  ⟨(validateUser_frame_and_errors ⟨fun p => "H:" ++ p, fun p h => h == "H:" ++ p⟩
      ⟨[], []⟩ "bob" "pw").2.1 "io down",
   (validateUser_frame_and_errors ⟨fun p => "H:" ++ p, fun p h => h == "H:" ++ p⟩
      ⟨[], []⟩ "bob" "pw").2.2.2 (some { userid := "bob", secret := some "H:other" })
      (by decide)⟩

/-- Claim C9, counterexample: `addHunt` writes into the caller's hunt
object.  The embedding's third component is the argument object as it
stands after the call (JavaScript mutates it in place, lines 172-180); for
a hunt passed in with neither `_id` nor `url`, the caller's object
afterwards carries the generated `_id` and the derived url, so the claim
that no `_id` or `url` field is written into the argument is false. -/
theorem addHunt_mutates_argument :
    ((addHunt ⟨"play", "example.com"⟩ "aaaaaaaaaaaaaaaaaaaaaaaa" ⟨[], []⟩
        { _id := none, creatorId := none, url := none, huntName := "Park Quest",
          huntDesc := "", huntInfo := ⟨0, 0, 0⟩, pins := [] }).2.2._id
      = some "aaaaaaaaaaaaaaaaaaaaaaaa")
  ∧ ((addHunt ⟨"play", "example.com"⟩ "aaaaaaaaaaaaaaaaaaaaaaaa" ⟨[], []⟩
        { _id := none, creatorId := none, url := none, huntName := "Park Quest",
          huntDesc := "", huntInfo := ⟨0, 0, 0⟩, pins := [] }).2.2.url
      = some "http://play.example.com/aaaaaaaaaaaaaaaaaaaaaaaa") := by
  constructor
  · rfl
  · rfl

/-- Claim C9, amended: `addHunt` mutates the caller's hunt object, writing
the generated `_id` and the derived url into it, and the document it
persists is that same (shared) object, not a copy. -/
theorem addHunt_argument_shared (cfg : ServerConfig) (genId : String)
    (s : Store) (hunt : Hunt) :
    (addHunt cfg genId s hunt).2.2
        = { hunt with _id := some genId, url := some (huntUrl cfg genId) }
  ∧ (addHunt cfg genId s hunt).2.1.hunts
        = s.hunts ++ [(addHunt cfg genId s hunt).2.2] :=
  ⟨rfl, rfl⟩

/-- Claim C2: round-trip authentication.  On a store with no user alice,
running `findOrCreateUser("alice", "secret")` and then
`validateUser("alice", "secret")` resolves to
`{id: "alice", message: "success"}`, assuming the bcrypt library verifies a
password against its own hash (and produces a non-empty hash). -/
theorem roundTrip_auth (bc : Bcrypt) (rand : String) (s : Store)
    (hfresh : usersFindOne s "alice" = none)
    (hhash : ¬ bc.hash "secret" = "")
    (hverify : bc.verify "secret" (bc.hash "secret") = true) :
    (validateUser bc (findOrCreateUser bc rand s "alice" (some "secret")).2
        "alice" "secret").1 = { id := some "alice", message := "success" } := by
  have hfind : s.users.find? (fun d => d.userid = "alice") = none := hfresh
  have h1 : (findOrCreateUser bc rand s "alice" (some "secret")).2
      = { s with users := s.users ++ [{ userid := "alice", secret := some (bc.hash "secret") }] } := by
    simp only [findOrCreateUser, usersFindAndModify,
      effectivePassword_some_ne rand "secret" (by decide)]
    rw [hfind]
  have hd : usersFindOne
        { s with users := s.users ++ [{ userid := "alice", secret := some (bc.hash "secret") }] }
        "alice"
      = some { userid := "alice", secret := some (bc.hash "secret") } :=
    find?_append_singleton _ _ _ hfind (by simp)
  rw [h1]
  simp [validateUser, authOutcome, hd, chosenSecret, hhash, hverify]

/-- Claim C2, witness: the round trip evaluated on the empty store with the
concrete bcrypt model `hash p = H:p`. -/
theorem roundTrip_auth_witness :
    usersFindOne ⟨[], []⟩ "alice" = none
  ∧ (validateUser ⟨fun p => "H:" ++ p, fun p h => h == "H:" ++ p⟩
        (findOrCreateUser ⟨fun p => "H:" ++ p, fun p h => h == "H:" ++ p⟩ "r"
          ⟨[], []⟩ "alice" (some "secret")).2
        "alice" "secret").1 = { id := some "alice", message := "success" } :=
  ⟨by decide,
   roundTrip_auth ⟨fun p => "H:" ++ p, fun p h => h == "H:" ++ p⟩ "r" ⟨[], []⟩
     (by decide) (by decide) (by decide)⟩

/-- Claim C4: idempotent find-or-create.  Starting from a store with no
user `u`, running `findOrCreateUser(u, "pw1")` and then
`findOrCreateUser(u, "pw2")` leaves exactly one User record for `u`, and
its stored secret is the hash of "pw1" — the second call leaves the
existing record unchanged (`$setOnInsert` writes nothing on a match). -/
theorem findOrCreateUser_idempotent (bc : Bcrypt) (r1 r2 : String) (s : Store)
    (u : String) (hfresh : usersFindOne s u = none) :
    ((findOrCreateUser bc r2 (findOrCreateUser bc r1 s u (some "pw1")).2
        u (some "pw2")).2).users.filter (fun d => d.userid = u)
      = [{ userid := u, secret := some (bc.hash "pw1") }] := by
  have hfind : s.users.find? (fun d => d.userid = u) = none := hfresh
  have h1 : (findOrCreateUser bc r1 s u (some "pw1")).2
      = { s with users := s.users ++ [{ userid := u, secret := some (bc.hash "pw1") }] } := by
    simp only [findOrCreateUser, usersFindAndModify,
      effectivePassword_some_ne r1 "pw1" (by decide)]
    rw [hfind]
  have hd : (s.users ++ [({ userid := u, secret := some (bc.hash "pw1") } : UserDoc)]).find?
        (fun d => d.userid = u)
      = some { userid := u, secret := some (bc.hash "pw1") } :=
    find?_append_singleton _ _ _ hfind (by simp)
  have h2 : (findOrCreateUser bc r2 (findOrCreateUser bc r1 s u (some "pw1")).2
        u (some "pw2")).2
      = { s with users := s.users ++ [{ userid := u, secret := some (bc.hash "pw1") }] } := by
    rw [h1]
    simp only [findOrCreateUser, usersFindAndModify]
    rw [hd]
  rw [h2]
  have hnil : s.users.filter (fun d => d.userid = u) = [] :=
    List.filter_eq_nil_iff.mpr (List.find?_eq_none.mp hfind)
  simp [List.filter_append, hnil]

/-- Claim C4, witness: the two calls evaluated on the empty store with the
concrete bcrypt model `hash p = H:p`. -/
theorem findOrCreateUser_idempotent_witness :
    usersFindOne ⟨[], []⟩ "alice" = none
  ∧ ((findOrCreateUser ⟨fun p => "H:" ++ p, fun p h => h == "H:" ++ p⟩ "r2"
        (findOrCreateUser ⟨fun p => "H:" ++ p, fun p h => h == "H:" ++ p⟩ "r1"
          ⟨[], []⟩ "alice" (some "pw1")).2
        "alice" (some "pw2")).2).users.filter (fun d => d.userid = "alice")
      = [{ userid := "alice", secret := some "H:pw1" }] :=
  ⟨by decide,
   findOrCreateUser_idempotent ⟨fun p => "H:" ++ p, fun p h => h == "H:" ++ p⟩
     "r1" "r2" ⟨[], []⟩ "alice" (by decide)⟩

/-- Claim C5, counterexample: the guard of `removeHuntbyId` and
`getHuntById` checks only the length of the id, never that the characters
are hexadecimal.  The 24-character id `zzzzzzzzzzzzzzzzzzzzzzzz` is not a
well-formed identifier (not 12 raw bytes, not 24 hex characters), yet it is
not replaced by the all-zero identifier, and on a store holding a document
with exactly this id, `getHuntById` resolves to that document rather than
to null. -/
theorem huntId_guard_counterexample :
    normalizeHuntId "zzzzzzzzzzzzzzzzzzzzzzzz" ≠ "000000000000000000000000"
  ∧ getHuntById
      ⟨[], [{ _id := some "zzzzzzzzzzzzzzzzzzzzzzzz", creatorId := none, url := none, huntName := "h", huntDesc := "", huntInfo := ⟨0, 0, 0⟩, pins := [] }]⟩
      "zzzzzzzzzzzzzzzzzzzzzzzz" ≠ none := by
  constructor
  · decide
  · decide

/-- Claim C5, amended: the guard checks only the string length.  For every
id whose length is neither 12 nor 24, both operations substitute the
all-zero identifier and — provided no stored hunt carries the all-zero
id — resolve to null with the store unchanged, rather than rejecting with
a StoreError; an id of length 12 or 24 is passed through with no further
validation. -/
theorem huntId_guard_length_only (s : Store) (huntid : String)
    (h12 : ¬ huntid.length = 12) (h24 : ¬ huntid.length = 24)
    (hzero : ∀ h ∈ s.hunts, ¬ h._id = some "000000000000000000000000") :
    normalizeHuntId huntid = "000000000000000000000000"
  ∧ getHuntById s huntid = none
  ∧ removeHuntbyId s huntid = (none, s) := by
  have hn : normalizeHuntId huntid = "000000000000000000000000" := by
    simp [normalizeHuntId, h12, h24]
  have hfind : s.hunts.find? (fun h => h._id = some "000000000000000000000000") = none :=
    List.find?_eq_none.mpr (fun h hm => by simpa using hzero h hm)
  refine ⟨hn, ?_, ?_⟩
  · simp only [getHuntById, hn]
    rw [hfind]
  · simp only [removeHuntbyId, hn]
    rw [hfind]

/-- Claim C5, amended, witness: `not-a-valid-id` has length 14, so both
operations behave as not-found on a store holding one document. -/
theorem huntId_guard_length_only_witness :
    ¬ ("not-a-valid-id".length = 12)
  ∧ getHuntById
      ⟨[], [{ _id := some "aaaaaaaaaaaaaaaaaaaaaaaa", creatorId := none, url := none, huntName := "h", huntDesc := "", huntInfo := ⟨0, 0, 0⟩, pins := [] }]⟩
      "not-a-valid-id" = none
  ∧ removeHuntbyId
      ⟨[], [{ _id := some "aaaaaaaaaaaaaaaaaaaaaaaa", creatorId := none, url := none, huntName := "h", huntDesc := "", huntInfo := ⟨0, 0, 0⟩, pins := [] }]⟩
      "not-a-valid-id"
    = (none, ⟨[], [{ _id := some "aaaaaaaaaaaaaaaaaaaaaaaa", creatorId := none, url := none, huntName := "h", huntDesc := "", huntInfo := ⟨0, 0, 0⟩, pins := [] }]⟩) :=
  ⟨by decide,
   (huntId_guard_length_only
     ⟨[], [{ _id := some "aaaaaaaaaaaaaaaaaaaaaaaa", creatorId := none, url := none, huntName := "h", huntDesc := "", huntInfo := ⟨0, 0, 0⟩, pins := [] }]⟩
     "not-a-valid-id" (by decide) (by decide) (by decide)).2.1,
   (huntId_guard_length_only
     ⟨[], [{ _id := some "aaaaaaaaaaaaaaaaaaaaaaaa", creatorId := none, url := none, huntName := "h", huntDesc := "", huntInfo := ⟨0, 0, 0⟩, pins := [] }]⟩
     "not-a-valid-id" (by decide) (by decide) (by decide)).2.2⟩

/-- Claim C6, counterexample: `updateHunt` is a whole-document replace, so
the url is not preserved from storage.  Replacing the stored document
(url `u-orig`) by a hunt carrying the same `_id` but url `u-new` resolves
to a document whose url is `u-new`, not the stored `u-orig`. -/
theorem updateHunt_url_counterexample :
    (updateHunt
        ⟨[], [{ _id := some "aaaaaaaaaaaaaaaaaaaaaaaa", creatorId := none, url := some "u-orig", huntName := "old", huntDesc := "", huntInfo := ⟨0, 0, 0⟩, pins := [] }]⟩
        { _id := some "aaaaaaaaaaaaaaaaaaaaaaaa", creatorId := none, url := some "u-new", huntName := "new", huntDesc := "", huntInfo := ⟨0, 0, 0⟩, pins := [] }).1
      = some { _id := some "aaaaaaaaaaaaaaaaaaaaaaaa", creatorId := none, url := some "u-new", huntName := "new", huntDesc := "", huntInfo := ⟨0, 0, 0⟩, pins := [] }
  ∧ (some "u-new" : Option String) ≠ some "u-orig" := by
  constructor
  · decide
  · decide

/-- Claim C6, amended: `updateHunt` is a total replace.  When some stored
document has the supplied hunt's `_id`, it resolves to the supplied
document itself — so `_id` is preserved and `huntName` reflects the new
value, but `url`, like every other field, is taken from the supplied hunt
and is unchanged only when the caller passes the stored url back.  When no
stored document matches, it resolves to null and the store is unchanged. -/
theorem updateHunt_total_replace (s : Store) (hunt : Hunt) :
    (s.hunts.any (fun d => d._id = hunt._id) = true →
        (updateHunt s hunt).1 = some hunt
      ∧ (updateHunt s hunt).2.hunts
          = s.hunts.map (fun d => if d._id = hunt._id then hunt else d))
  ∧ (s.hunts.any (fun d => d._id = hunt._id) = false →
        updateHunt s hunt = (none, s)) := by
  constructor
  · intro h
    constructor
    · simp [updateHunt, huntsUpdate, h]
    · simp [updateHunt, huntsUpdate, h]
  · intro h
    simp [updateHunt, huntsUpdate, h]

/-- Claim C6, amended, witness: updating the stored document with a new
`huntName` resolves to the supplied document, and updating on the empty
store resolves to null with the store unchanged. -/
theorem updateHunt_total_replace_witness :
    (updateHunt
        ⟨[], [{ _id := some "bbbbbbbbbbbbbbbbbbbbbbbb", creatorId := none, url := some "u", huntName := "old", huntDesc := "", huntInfo := ⟨0, 0, 0⟩, pins := [] }]⟩
        { _id := some "bbbbbbbbbbbbbbbbbbbbbbbb", creatorId := none, url := some "u", huntName := "new", huntDesc := "", huntInfo := ⟨0, 0, 0⟩, pins := [] }).1
      = some { _id := some "bbbbbbbbbbbbbbbbbbbbbbbb", creatorId := none, url := some "u", huntName := "new", huntDesc := "", huntInfo := ⟨0, 0, 0⟩, pins := [] }
  ∧ updateHunt ⟨[], []⟩
        { _id := some "bbbbbbbbbbbbbbbbbbbbbbbb", creatorId := none, url := some "u", huntName := "new", huntDesc := "", huntInfo := ⟨0, 0, 0⟩, pins := [] }
      = (none, ⟨[], []⟩) :=
  ⟨((updateHunt_total_replace
      ⟨[], [{ _id := some "bbbbbbbbbbbbbbbbbbbbbbbb", creatorId := none, url := some "u", huntName := "old", huntDesc := "", huntInfo := ⟨0, 0, 0⟩, pins := [] }]⟩
      { _id := some "bbbbbbbbbbbbbbbbbbbbbbbb", creatorId := none, url := some "u", huntName := "new", huntDesc := "", huntInfo := ⟨0, 0, 0⟩, pins := [] }).1
      (by decide)).1,
   (updateHunt_total_replace ⟨[], []⟩
      { _id := some "bbbbbbbbbbbbbbbbbbbbbbbb", creatorId := none, url := some "u", huntName := "new", huntDesc := "", huntInfo := ⟨0, 0, 0⟩, pins := [] }).2
      (by decide)⟩

/-- Claim C10: when a User record exists for the given username but has no
stored secret (absent or empty, both falsy), `validateUser` compares the
supplied password against the fixed decoy hash, and a password matching
the decoy hash authenticates successfully: existence of the record plus a
decoy match suffices. -/
theorem validateUser_decoy_success (bc : Bcrypt) (s : Store) (u p : String)
    (d : UserDoc) (hdoc : usersFindOne s u = some d)
    (hnosec : d.secret = none ∨ d.secret = some "")
    (hmatch : bc.verify p dummySecret = true) :
    chosenSecret (usersFindOne s u) = dummySecret
  ∧ (validateUser bc s u p).1 = { id := some u, message := "success" } := by
  have hcs : chosenSecret (some d) = dummySecret := by
    rcases hnosec with h | h <;> simp [chosenSecret, h]
  have hu := usersFindOne_some_userid hdoc
  constructor
  · rw [hdoc]
    exact hcs
  · simp [validateUser, authOutcome, hdoc, hcs, hmatch, hu]

/-- Claim C10, witness: a secretless record for bob, with a bcrypt model
under which the supplied password matches the decoy hash, authenticates
successfully. -/
theorem validateUser_decoy_success_witness :
    usersFindOne ⟨[{ userid := "bob", secret := none }], []⟩ "bob"
      = some { userid := "bob", secret := none }
  ∧ (validateUser ⟨fun p => "H:" ++ p, fun _ h => h == dummySecret⟩
        ⟨[{ userid := "bob", secret := none }], []⟩ "bob" "anything").1
      = { id := some "bob", message := "success" } :=
  ⟨by decide,
   (validateUser_decoy_success ⟨fun p => "H:" ++ p, fun _ h => h == dummySecret⟩
     ⟨[{ userid := "bob", secret := none }], []⟩ "bob" "anything"
     { userid := "bob", secret := none } (by decide) (Or.inl rfl) (by decide)).2⟩

end PathHero
